import Mathlib

/-!
Verification development for the Hyperliquid copy-trader repository.

Shallow embedding of the Python sources:
  * `src/copy_engine/executor.py`   — `TradeExecutor` (init, signing, order placement,
    position close, dry-run simulation),
  * `src/hyperliquid/websocket.py`  — `HyperliquidWebSocket` (connect / subscribe /
    message dispatch / listen loop),
  * `src/telegram_bot/bot.py`       — `TelegramBot` command and button handlers.

Conventions: Python `Optional`/falsy values become `Option`; raised exceptions become
`Except`; the wall clock is passed explicitly (`clockMs` = `int(time.time()*1000)`,
`clockSec` = `int(time.time())`); HTTP transport is passed explicitly as the responses
the server would return, and every function that performs network I/O also returns the
list of requests it issued, so "no network call" is expressed as an empty request list.
The EIP-712 signature produced by `eth_account` is abstracted as an opaque `SigRSV`
value passed in by the caller (the library is an external collaborator); the signing
code signs a constant message, so the signature value is independent of the action.
-/

deriving instance DecidableEq for Except

/-- Order side, from `src/hyperliquid/models.py` (`OrderSide`). -/
inductive OrderSide where
  | buy
  | sell
deriving DecidableEq, Repr

/-- Position side, from `src/hyperliquid/models.py` (`PositionSide`). -/
inductive PositionSide where
  | long
  | short
deriving DecidableEq, Repr

/-- Order type, from `src/hyperliquid/models.py` (`OrderType`); only the two kinds the
executor uses are needed. -/
inductive OrderType where
  | market
  | limit
deriving DecidableEq, Repr

/-- An ECDSA signature `{r, s, v}` as produced by `eth_account.sign_typed_data`.
Opaque to this development. -/
structure SigRSV where
  r : String
  s : String
  v : Nat
deriving DecidableEq, Repr

/-- One wire-format order inside an exchange `order` action, mirroring the dict
built in `execute_market_order` / `execute_limit_order`
(`{"a": wallet, "b": is_buy, "p": price, "s": size, "r": reduce_only,
"t": {"limit": {"tif": tif}}, "c": symbol}`). The Python `str(float(...))`
rendering of sizes and prices is abstracted: they are carried as strings. -/
structure WireOrder where
  a : Option String
  b : Bool
  p : String
  s : String
  r : Bool
  tif : String
  c : String
deriving DecidableEq, Repr

/-- An exchange API action, mirroring the `action` dicts built by the executor. -/
inductive ApiAction where
  | updateLeverage (asset : String) (isCross : Bool) (leverage : Nat)
  | order (orders : List WireOrder) (grouping : String)
deriving DecidableEq, Repr

/-- The signed request built by `TradeExecutor._sign_action`:
`{"action": action, "nonce": timestamp, "signature": sig, "vaultAddress": None}`. -/
structure SignedRequest where
  action : ApiAction
  nonce : Nat
  signature : SigRSV
  vaultAddress : Option String
deriving DecidableEq, Repr

/-- Executor state, from `TradeExecutor.__init__` in `src/copy_engine/executor.py`.
`account` holds the address derived from the private key when a signing account was
initialised (the embedding keeps the derived address, the only part of the
`LocalAccount` object the code reads). -/
structure TradeExecutor where
  wallet_address : Option String
  private_key : Option String
  info_url : String
  exchange_url : String
  dry_run : Bool
  account : Option String
deriving DecidableEq, Repr

/-- Errors raised by `TradeExecutor.__init__`: the spec's `ConfigurationError`
taxonomy. `missingKey` is the `ValueError("Cannot run in live mode without private
key")`; `addressMismatch` is the `ValueError` raised when the address derived from
the private key does not match the configured wallet address. -/
inductive InitError where
  | missingKey
  | addressMismatch (derived : String) (configured : Option String)
deriving DecidableEq, Repr

/-- Python truthiness of an optional string (`None` and `""` are falsy). -/
def optTruthy : Option String → Bool
  | none => false
  | some s => !s.isEmpty

/-- Python `str.lower()`, modelled character-wise (the addresses involved are
ASCII hex strings). -/
def pyLowerStr (s : String) : String :=
  (s.data.map Char.toLower).asString

/-- The constructor's `wallet_address.lower() if wallet_address else None`. -/
def pyLowerOpt : Option String → Option String
  | none => none
  | some s => if s.isEmpty then none else some (pyLowerStr s)

/-- TradeExecutor.__init__ from `src/copy_engine/executor.py` (lines 15-56).
`deriveAddress` abstracts `Account.from_key(k).address`. In live mode
(`dry_run = false`) a missing (untruthy) private key raises, and a derived address
whose lowercase form differs from the stored (lowercased) wallet address raises. -/
def initExecutor (deriveAddress : String → String)
    (wallet_address private_key : Option String)
    (info_url exchange_url : String) (dry_run : Bool) :
    Except InitError TradeExecutor :=
  let wallet := pyLowerOpt wallet_address
  if optTruthy private_key && !dry_run then
    match private_key with
    | some k =>
        let derived := deriveAddress k
        if some (pyLowerStr derived) ≠ wallet then
          .error (.addressMismatch derived wallet)
        else
          .ok ⟨wallet, private_key, info_url, exchange_url, dry_run, some derived⟩
    | none => .error .missingKey
  else if !dry_run then
    .error .missingKey
  else
    .ok ⟨wallet, private_key, info_url, exchange_url, dry_run, none⟩

/-- TradeExecutor._sign_action from `src/copy_engine/executor.py` (lines 58-120).
Raises (`.error`) when no signing account is present; otherwise the nonce is
`int(time.time() * 1000)` — the current clock milliseconds, with no last-nonce
tracking and no bump. `sig` is the `eth_account` signature of the constant
structured message. -/
def signAction (e : TradeExecutor) (sig : SigRSV) (clockMs : Nat) (action : ApiAction) :
    Except String SignedRequest :=
  match e.account with
  | none => .error "Cannot sign actions without account"
  | some _ => .ok ⟨action, clockMs, sig, none⟩

/-- The `resting` object inside an order-status entry of the exchange response
(`{"resting": {"oid": n}}`); `oid` may be absent (dict `.get` returns `None`). -/
structure RestingS where
  oid : Option Nat
deriving DecidableEq, Repr

/-- The `filled` object inside an order-status entry
(`{"filled": {"oid", "totalSz", "avgPx"}}`). -/
structure FilledS where
  oid : Option Nat
  totalSz : Option String
  avgPx : Option String
deriving DecidableEq, Repr

/-- One entry of `response.data.statuses` in the exchange response body: a dict that
may carry a `resting`, a `filled`, or an `error` key. -/
structure StatusEntry where
  resting : Option RestingS
  filled : Option FilledS
  errorMsg : Option String
deriving DecidableEq, Repr

/-- The `data` object of a success body; `statuses` may be absent. -/
structure RespData where
  statuses : Option (List StatusEntry)
deriving DecidableEq, Repr

/-- A parsed exchange response body. `status` is `body.get("status")`; `rdata` is the
value of `body.get("response", {}).get("data")`, with `none` covering the missing and
the falsy (empty-dict) cases, which the code treats alike. -/
structure RespBody where
  status : Option String
  rdata : Option RespData
deriving DecidableEq, Repr

/-- An HTTP response from the exchange endpoint: `httpStatus` is the HTTP status
code, `body` the JSON body as read by `response.json()`, `rawText` the raw body as
read by `response.text()` on the non-200 path. -/
structure HttpResp where
  httpStatus : Nat
  body : RespBody
  rawText : String
deriving DecidableEq, Repr

/-- Result of an order-placement call: the Python functions return
`Optional[str]`-ish values — a resting order id, the sentinel string
`"executed"`, a dry-run simulated id `sim_...`, or a dry-run close id
`dry_run_close_...`. `none` is Python `None` (failure). -/
inductive OrderIdR where
  | oid (n : Nat)
  | executed
  | sim (idStr : String)
  | dryClose (idStr : String)
deriving DecidableEq, Repr

/-- The oid extraction
`result["response"]["data"].get("statuses", [{}])[0].get("resting", {}).get("oid")`:
a missing `statuses` key defaults to `[{}]` whose first entry has no resting oid
(`none`); an empty `statuses` list raises `IndexError`, which the surrounding
`except` swallows into the same `None` result the caller returns. -/
def firstRestingOid (d : RespData) : Option Nat :=
  match d.statuses with
  | none => none
  | some [] => none
  | some (st :: _) =>
      match st.resting with
      | some rs => rs.oid
      | none => none

/-- Response parsing of `execute_market_order` (lines 224-242 of
`src/copy_engine/executor.py`): on HTTP 200, the condition mirrors
`result.get("status") == "ok" and result.get("response", {}).get("data")`; when it
holds, the first status entry's `resting.oid` is returned (Python returns `None`
when absent), and when it fails the sentinel `"executed"` is returned ("Order
filled immediately"); a non-200 response yields `None` after logging the raw
body. -/
def parseMarketResp (resp : HttpResp) : Option OrderIdR :=
  if resp.httpStatus = 200 then
    if resp.body.status = some "ok" ∧ resp.body.rdata ≠ none then
      match resp.body.rdata with
      | some d => (firstRestingOid d).map .oid
      | none => none
    else some .executed
  else none

/-- Response parsing of `execute_limit_order` (lines 308-326): as the market path,
except that a 200 body without `status == "ok"` and truthy data returns `None`
instead of the `"executed"` sentinel. -/
def parseLimitResp (resp : HttpResp) : Option OrderIdR :=
  if resp.httpStatus = 200 then
    if resp.body.status = some "ok" ∧ resp.body.rdata ≠ none then
      match resp.body.rdata with
      | some d => (firstRestingOid d).map .oid
      | none => none
    else none
  else none

/-- TradeExecutor._simulate_order (lines 442-477): the synthetic dry-run order id
`f"sim_{symbol}_{int(time.time())}"` — symbol plus the second-granularity
timestamp. -/
def simulateOrder (symbol : String) (clockSec : Nat) : String :=
  "sim_" ++ symbol ++ "_" ++ toString clockSec

/-- The wire order built by `execute_market_order`: price `"0"` (market),
immediate-or-cancel time-in-force. -/
def marketWireOrder (e : TradeExecutor) (symbol : String) (side : OrderSide)
    (size : String) (reduceOnly : Bool) : WireOrder :=
  ⟨e.wallet_address, side == OrderSide.buy, "0", size, reduceOnly, "Ioc", symbol⟩

/-- The wire order built by `execute_limit_order`: good-till-cancelled, or
add-liquidity-only when `post_only` is set. -/
def limitWireOrder (e : TradeExecutor) (symbol : String) (side : OrderSide)
    (size price : String) (reduceOnly postOnly : Bool) : WireOrder :=
  ⟨e.wallet_address, side == OrderSide.buy, price, size, reduceOnly,
    if postOnly then "Alo" else "Gtc", symbol⟩

/-- TradeExecutor.execute_market_order (lines 167-242). Dry-run returns the
simulated id and issues no request. Live: when `leverage > 1` a best-effort
`updateLeverage` request is issued first (its response only affects logging);
then the order action is signed and posted, and the response parsed by
`parseMarketResp`. A missing signing account makes `_sign_action` raise, which
the `except` swallows into `None` — and inside `_update_leverage` into a logged
`False` — so no request is issued at all in that case. Returns
(result, issued requests). -/
def executeMarketOrder (e : TradeExecutor) (sig : SigRSV) (clockMs clockSec : Nat)
    (respOrder : HttpResp) (symbol : String) (side : OrderSide) (size : String)
    (leverage : Nat) (reduceOnly : Bool) : Option OrderIdR × List SignedRequest :=
  if e.dry_run then
    (some (.sim (simulateOrder symbol clockSec)), [])
  else
    match e.account with
    | none => (none, [])
    | some _ =>
        let levReqs :=
          if leverage > 1 then
            match signAction e sig clockMs (.updateLeverage symbol true leverage) with
            | .ok r => [r]
            | .error _ => []
          else []
        let action : ApiAction :=
          .order [marketWireOrder e symbol side size reduceOnly] "na"
        match signAction e sig clockMs action with
        | .error _ => (none, levReqs)
        | .ok req => (parseMarketResp respOrder, levReqs ++ [req])

/-- TradeExecutor.execute_limit_order (lines 244-326), analogous to the market
path with an explicit price and the Gtc/Alo time-in-force. -/
def executeLimitOrder (e : TradeExecutor) (sig : SigRSV) (clockMs clockSec : Nat)
    (respOrder : HttpResp) (symbol : String) (side : OrderSide) (size price : String)
    (leverage : Nat) (reduceOnly postOnly : Bool) :
    Option OrderIdR × List SignedRequest :=
  if e.dry_run then
    (some (.sim (simulateOrder symbol clockSec)), [])
  else
    match e.account with
    | none => (none, [])
    | some _ =>
        let levReqs :=
          if leverage > 1 then
            match signAction e sig clockMs (.updateLeverage symbol true leverage) with
            | .ok r => [r]
            | .error _ => []
          else []
        let action : ApiAction :=
          .order [limitWireOrder e symbol side size price reduceOnly postOnly] "na"
        match signAction e sig clockMs action with
        | .error _ => (none, levReqs)
        | .ok req => (parseLimitResp respOrder, levReqs ++ [req])

/-- TradeExecutor.close_position (lines 328-353): dry-run logs and returns the
synthetic id `f"dry_run_close_{symbol}_{int(time.time())}"` without any request;
live delegates to `execute_market_order` with `reduce_only=True` and the
caller-supplied closing side (documented as the opposite of the position's side),
leaving `leverage` at its default `1`. -/
def closePosition (e : TradeExecutor) (sig : SigRSV) (clockMs clockSec : Nat)
    (respOrder : HttpResp) (symbol : String) (size : String) (side : OrderSide) :
    Option OrderIdR × List SignedRequest :=
  if e.dry_run then
    (some (.dryClose ("dry_run_close_" ++ symbol ++ "_" ++ toString clockSec)), [])
  else
    executeMarketOrder e sig clockMs clockSec respOrder symbol side size 1 true

/-- The opposing order side for closing a position of the given side, per the
glossary (reduce-only close) and the `close_position` docstring: a long position is
closed by a sell, a short by a buy. -/
def closingSideFor : PositionSide → OrderSide
  | .long => .sell
  | .short => .buy

/-- A concrete signature value used by concrete instantiations. -/
def sampleSig : SigRSV := ⟨"0x01", "0x02", 27⟩

/-- A concrete address-derivation function used by concrete instantiations. -/
def sampleDerive : String → String := fun _ => "0xAB"

/-- A live-mode executor, equal to the result of
`initExecutor sampleDerive (some "0xAB") (some "k") "i" "x" false`. -/
def sampleLiveExec : TradeExecutor :=
  ⟨some "0xab", some "k", "i", "x", false, some "0xAB"⟩

/-- A dry-run executor, equal to the result of
`initExecutor sampleDerive (some "0xAB") (some "k") "i" "x" true`. -/
def sampleDryExec : TradeExecutor :=
  ⟨some "0xab", some "k", "i", "x", true, none⟩

/-- An HTTP 200 response whose body has `status = "err"` and no data. -/
def errBodyResp : HttpResp := ⟨200, ⟨some "err", none⟩, "status err"⟩

/-- sampleLiveExec is reachable from the constructor. -/
theorem sampleLiveExec_reachable :
    initExecutor sampleDerive (some "0xAB") (some "k") "i" "x" false
      = .ok sampleLiveExec := by decide

/-- sampleDryExec is reachable from the constructor. -/
theorem sampleDryExec_reachable :
    initExecutor sampleDerive (some "0xAB") (some "k") "i" "x" true
      = .ok sampleDryExec := by decide

/-- C1 counterexample: two successive signing calls by the same (live) executor
within the same millisecond (`clockMs = 1700000000000` both times) both receive
nonce 1700000000000 — the second nonce is not strictly greater than the first,
contradicting the claimed per-key bump. -/
theorem signAction_same_ms_nonce_not_increasing :
    (signAction sampleLiveExec sampleSig 1700000000000
        (.updateLeverage "BTC" true 2)).map SignedRequest.nonce
      = .ok 1700000000000
    ∧ (signAction sampleLiveExec sampleSig 1700000000000
        (.order [] "na")).map SignedRequest.nonce
      = .ok 1700000000000
    ∧ ¬ ((1700000000000 : Nat) > 1700000000000) :=
  ⟨rfl, rfl, by omega⟩

/-- C1 (amended): `_sign_action` uses the raw clock milliseconds as the nonce, with
no last-nonce tracking and no bump; consequently the nonce of a second signing call
is strictly greater than that of a first exactly when the millisecond clock strictly
increased between them, and two calls in the same millisecond receive equal
nonces. -/
theorem signAction_nonce_eq_clock (e : TradeExecutor) (sig₁ sig₂ : SigRSV)
    (t₁ t₂ : Nat) (a₁ a₂ : ApiAction) (r₁ r₂ : SignedRequest)
    (h₁ : signAction e sig₁ t₁ a₁ = .ok r₁)
    (h₂ : signAction e sig₂ t₂ a₂ = .ok r₂) :
    r₁.nonce = t₁ ∧ r₂.nonce = t₂ ∧ (r₂.nonce > r₁.nonce ↔ t₂ > t₁) := by
  unfold signAction at h₁ h₂
  cases hacc : e.account with
  | none => rw [hacc] at h₁; cases h₁
  | some a =>
      rw [hacc] at h₁ h₂
      cases h₁
      cases h₂
      exact ⟨rfl, rfl, Iff.rfl⟩

/-- Witness for the amended C1 theorem at clock values 5 and 6. -/
theorem signAction_nonce_eq_clock_witness :
    (SignedRequest.nonce ⟨.order [] "na", 5, sampleSig, none⟩ = 5)
    ∧ (SignedRequest.nonce ⟨.order [] "na", 6, sampleSig, none⟩ = 6)
    ∧ (SignedRequest.nonce ⟨.order [] "na", 6, sampleSig, none⟩ >
        SignedRequest.nonce ⟨.order [] "na", 5, sampleSig, none⟩ ↔ (6 : Nat) > 5) :=
  signAction_nonce_eq_clock sampleLiveExec sampleSig sampleSig 5 6
    (.order [] "na") (.order [] "na") _ _ rfl rfl

/-- C8 (confirmed): constructing the executor in live mode (`dry_run = false`) with
no truthy private key fails with the missing-key configuration error, while a
non-empty private key never produces that error (it yields either a constructed
executor or the distinct address-mismatch error). -/
theorem initExecutor_live_key_requirement (deriveAddress : String → String)
    (w pk : Option String) (iu eu : String) (k : String)
    (hpk : optTruthy pk = false) (hk : k ≠ "") :
    initExecutor deriveAddress w pk iu eu false = .error .missingKey
    ∧ initExecutor deriveAddress w (some k) iu eu false ≠ .error .missingKey := by
  constructor
  · unfold initExecutor
    rw [hpk]
    simp
  · have hke : k.isEmpty = false := by
      cases hke : k.isEmpty
      · rfl
      · exact absurd ((String.isEmpty_iff k).mp hke) hk
    have hk' : optTruthy (some k) = true := by
      simp [optTruthy, hke]
    unfold initExecutor
    rw [hk']
    simp only [Bool.true_and, Bool.not_false, if_true]
    split
    · intro h
      cases h
    · intro h
      cases h

/-- Witness for C8 at a concrete missing key (`none`) and present key `"k"`. -/
theorem initExecutor_live_key_requirement_witness :
    initExecutor sampleDerive (some "0xAB") none "i" "x" false = .error .missingKey
    ∧ initExecutor sampleDerive (some "0xAB") (some "k") "i" "x" false
        ≠ .error .missingKey :=
  initExecutor_live_key_requirement sampleDerive (some "0xAB") none "i" "x" "k"
    rfl (by decide)

/-- C9 (confirmed): every executor successfully constructed in live mode
(`dry_run = false`) has a signing account whose derived address, lowercased, equals
the stored wallet address, which itself is the lowercased configured address; the
key check happened in the constructor and no operation of the embedding mutates
these fields. -/
theorem initExecutor_live_address_invariant (deriveAddress : String → String)
    (w pk : Option String) (iu eu : String) (e : TradeExecutor)
    (h : initExecutor deriveAddress w pk iu eu false = .ok e) :
    e.account.map pyLowerStr = e.wallet_address
    ∧ e.account = pk.map deriveAddress
    ∧ e.wallet_address = pyLowerOpt w
    ∧ e.dry_run = false := by
  cases pk with
  | none => simp [initExecutor, optTruthy] at h
  | some k =>
      by_cases hke : k.isEmpty = true
      · simp [initExecutor, optTruthy, hke] at h
      · unfold initExecutor at h
        have ht : optTruthy (some k) = true := by
          simp [optTruthy, Bool.not_eq_true] at hke ⊢
          simp [hke]
        rw [ht] at h
        simp only [Bool.true_and, Bool.not_false, if_true] at h
        split at h
        · cases h
        · next hne =>
            cases h
            have heq : some (pyLowerStr (deriveAddress k)) = pyLowerOpt w :=
              not_not.mp hne
            exact ⟨heq, rfl, rfl, rfl⟩

/-- Witness for C9 at a concrete live construction. -/
theorem initExecutor_live_address_invariant_witness :
    sampleLiveExec.account.map pyLowerStr = sampleLiveExec.wallet_address
    ∧ sampleLiveExec.account = (some "k").map sampleDerive
    ∧ sampleLiveExec.wallet_address = pyLowerOpt (some "0xAB")
    ∧ sampleLiveExec.dry_run = false :=
  initExecutor_live_address_invariant sampleDerive (some "0xAB") (some "k") "i" "x"
    sampleLiveExec (by decide)

/-- C2 counterexample: a live market-order placement receiving HTTP 200 with a body
whose `status` is `"err"` (an exchange rejection) still returns the success sentinel
`"executed"` rather than a failure — success does not require `status = ok`. -/
theorem marketOrder_err_body_treated_as_success :
    (executeMarketOrder sampleLiveExec sampleSig 1000 1 errBodyResp
        "BTC" .buy "1.0" 1 false).1 = some .executed
    ∧ some OrderIdR.executed ≠ (none : Option OrderIdR) := by
  exact ⟨rfl, by decide⟩

/-- C2 (amended): live order placement hands the order response to a fixed parser.
A non-200 HTTP status yields `None` (the raw body is only logged; no
rejection value carrying it is constructed). A 200 response whose body has
`status = "ok"` and a truthy `data` field yields the first status entry's
`resting.oid` when present — and `None` otherwise, so `filled` entries' size and
average price are not captured and per-order `error` entries are not surfaced. A
200 response without `status = "ok"` yields the sentinel `"executed"` (treated as a
success) for market orders and `None` for limit orders. -/
theorem orderResponse_parsing (e : TradeExecutor) (sig : SigRSV) (tMs tS : Nat)
    (resp respBad respOk respErr : HttpResp) (sym : String) (side : OrderSide)
    (size price : String) (lev : Nat) (ro po : Bool) (acct : String)
    (d : RespData) (st : StatusEntry) (rest : List StatusEntry) (rs : RestingS)
    (n : Nat)
    (hd : e.dry_run = false) (ha : e.account = some acct)
    (hbad : respBad.httpStatus ≠ 200)
    (hok200 : respOk.httpStatus = 200) (hoks : respOk.body.status = some "ok")
    (hokd : respOk.body.rdata = some d) (hsts : d.statuses = some (st :: rest))
    (hrs : st.resting = some rs) (hoid : rs.oid = some n)
    (herr200 : respErr.httpStatus = 200)
    (herrs : respErr.body.status = some "err") :
    (executeMarketOrder e sig tMs tS resp sym side size lev ro).1
      = parseMarketResp resp
    ∧ (executeLimitOrder e sig tMs tS resp sym side size price lev ro po).1
      = parseLimitResp resp
    ∧ parseMarketResp respBad = none
    ∧ parseLimitResp respBad = none
    ∧ parseMarketResp respOk = some (.oid n)
    ∧ parseLimitResp respOk = some (.oid n)
    ∧ parseMarketResp respErr = some .executed
    ∧ parseLimitResp respErr = none := by
  refine ⟨?_, ?_, ?_, ?_, ?_, ?_, ?_, ?_⟩
  · unfold executeMarketOrder
    rw [hd, ha]
    simp [signAction, ha]
  · unfold executeLimitOrder
    rw [hd, ha]
    simp [signAction, ha]
  · unfold parseMarketResp
    rw [if_neg hbad]
  · unfold parseLimitResp
    rw [if_neg hbad]
  · simp [parseMarketResp, hok200, hoks, hokd, firstRestingOid, hsts, hrs, hoid]
  · simp [parseLimitResp, hok200, hoks, hokd, firstRestingOid, hsts, hrs, hoid]
  · simp [parseMarketResp, herr200, herrs]
  · simp [parseLimitResp, herr200, herrs]

/-- An HTTP 200 success response with one resting status entry (oid 42). -/
def okResp : HttpResp :=
  ⟨200, ⟨some "ok", some ⟨some [⟨some ⟨some 42⟩, none, none⟩]⟩⟩, "ok"⟩

/-- An HTTP 500 response. -/
def badResp : HttpResp := ⟨500, ⟨none, none⟩, "server error"⟩

/-- Witness for the amended C2 theorem at concrete responses. -/
theorem orderResponse_parsing_witness :
    (executeMarketOrder sampleLiveExec sampleSig 7 3 okResp "BTC" .buy "1.0" 1
        false).1 = parseMarketResp okResp
    ∧ (executeLimitOrder sampleLiveExec sampleSig 7 3 okResp "BTC" .buy "1.0"
        "10.0" 1 false false).1 = parseLimitResp okResp
    ∧ parseMarketResp badResp = none
    ∧ parseLimitResp badResp = none
    ∧ parseMarketResp okResp = some (.oid 42)
    ∧ parseLimitResp okResp = some (.oid 42)
    ∧ parseMarketResp errBodyResp = some .executed
    ∧ parseLimitResp errBodyResp = none :=
  orderResponse_parsing sampleLiveExec sampleSig 7 3 okResp badResp okResp
    errBodyResp "BTC" .buy "1.0" "10.0" 1 false false "0xAB"
    ⟨some [⟨some ⟨some 42⟩, none, none⟩]⟩ ⟨some ⟨some 42⟩, none, none⟩ []
    ⟨some 42⟩ 42 rfl rfl (by decide) rfl rfl rfl rfl rfl rfl rfl rfl

/-- C3 (confirmed): `close_position` in dry-run mode returns the synthetic close
confirmation id `dry_run_close_<symbol>_<seconds>` and issues no request; in live
mode it delegates to `execute_market_order` with `reduce_only = True`, default
leverage 1, and the closing side (the opposite of the position's side, per the
documented calling contract), so the single issued order request carries
`r = true` and that side. -/
theorem closePosition_delegation (eDry eLive : TradeExecutor) (sig : SigRSV)
    (tMs tS : Nat) (resp : HttpResp) (sym size : String) (ps : PositionSide)
    (acct : String)
    (hdry : eDry.dry_run = true) (hlive : eLive.dry_run = false)
    (ha : eLive.account = some acct) :
    closePosition eDry sig tMs tS resp sym size (closingSideFor ps)
      = (some (.dryClose ("dry_run_close_" ++ sym ++ "_" ++ toString tS)), [])
    ∧ closePosition eLive sig tMs tS resp sym size (closingSideFor ps)
      = executeMarketOrder eLive sig tMs tS resp sym (closingSideFor ps) size 1 true
    ∧ (closePosition eLive sig tMs tS resp sym size (closingSideFor ps)).2
      = [⟨.order [marketWireOrder eLive sym (closingSideFor ps) size true] "na",
          tMs, sig, none⟩] := by
  refine ⟨?_, ?_, ?_⟩
  · simp [closePosition, hdry]
  · simp [closePosition, hlive]
  · simp [closePosition, executeMarketOrder, hlive, ha, signAction]

/-- Witness for C3 at a concrete long position closed by a sell. -/
theorem closePosition_delegation_witness :
    closePosition sampleDryExec sampleSig 7 3 errBodyResp "BTC" "1.0"
        (closingSideFor .long)
      = (some (.dryClose ("dry_run_close_" ++ "BTC" ++ "_" ++ toString 3)), [])
    ∧ closePosition sampleLiveExec sampleSig 7 3 errBodyResp "BTC" "1.0"
        (closingSideFor .long)
      = executeMarketOrder sampleLiveExec sampleSig 7 3 errBodyResp "BTC"
          (closingSideFor .long) "1.0" 1 true
    ∧ (closePosition sampleLiveExec sampleSig 7 3 errBodyResp "BTC" "1.0"
        (closingSideFor .long)).2
      = [⟨.order [marketWireOrder sampleLiveExec "BTC" (closingSideFor .long)
          "1.0" true] "na", 7, sampleSig, none⟩] :=
  closePosition_delegation sampleDryExec sampleLiveExec sampleSig 7 3 errBodyResp
    "BTC" "1.0" .long "0xAB" rfl rfl rfl

/-- C4 counterexample: two distinct dry-run order placements in the same second
(`clockSec = 1000`) for the same symbol both receive the identical order id
`"sim_BTC_1000"` — the synthetic id is not unique across calls. -/
theorem simulatedOrder_id_not_unique :
    executeMarketOrder sampleDryExec sampleSig 1000000 1000 errBodyResp
      "BTC" .buy "1.0" 1 false
      = (some (.sim "sim_BTC_1000"), [])
    ∧ executeMarketOrder sampleDryExec sampleSig 1000500 1000 errBodyResp
      "BTC" .sell "2.0" 1 false
      = (some (.sim "sim_BTC_1000"), []) :=
  ⟨by decide, by decide⟩

/-- C4 (amended): a dry-run order placement returns the simulation-tagged,
non-empty order id `sim_<symbol>_<seconds>` derived from the symbol plus the
second-granularity timestamp, and issues zero network requests; the id is not
unique across calls — calls with the same symbol within the same second collide. -/
theorem dryRun_simulated_order (e : TradeExecutor) (sig : SigRSV) (tMs tS : Nat)
    (resp : HttpResp) (sym : String) (side : OrderSide) (size : String)
    (lev : Nat) (ro : Bool) (hd : e.dry_run = true) :
    executeMarketOrder e sig tMs tS resp sym side size lev ro
      = (some (.sim ("sim_" ++ sym ++ "_" ++ toString tS)), [])
    ∧ simulateOrder sym tS ≠ "" := by
  constructor
  · simp [executeMarketOrder, hd, simulateOrder]
  · intro hcontra
    have hlen := congrArg String.length hcontra
    simp only [simulateOrder, String.length_append] at hlen
    have h4 : ("sim_" : String).length = 4 := rfl
    have h1 : ("_" : String).length = 1 := rfl
    have h0 : ("" : String).length = 0 := rfl
    rw [h4, h1, h0] at hlen
    omega

/-- Witness for the amended C4 theorem at symbol "ETH", second 9. -/
theorem dryRun_simulated_order_witness :
    executeMarketOrder sampleDryExec sampleSig 5 9 errBodyResp "ETH" .buy "2.0" 3
      true = (some (.sim ("sim_" ++ "ETH" ++ "_" ++ toString 9)), [])
    ∧ simulateOrder "ETH" 9 ≠ "" :=
  dryRun_simulated_order sampleDryExec sampleSig 5 9 errBodyResp "ETH" .buy "2.0"
    3 true rfl

/-- Whether the first char list is a leading segment of the second. -/
def charsLead : List Char → List Char → Bool
  | [], _ => true
  | _ :: _, [] => false
  | a :: as, b :: bs => a == b && charsLead as bs

/-- Whether the first char list occurs contiguously inside the second. -/
def charsContain (needle : List Char) : List Char → Bool
  | [] => charsLead needle []
  | b :: bs => charsLead needle (b :: bs) || charsContain needle bs

/-- Python's substring test `needle in haystack`. -/
def pyIn (needle haystack : String) : Bool :=
  charsContain needle.data haystack.data

/-- The channel-key text before the first colon:
`callback_channel.split(":")[0]` in `_handle_message`. -/
def beforeColon (s : String) : String :=
  (s.data.takeWhile (fun c => c != ':')).asString

/-- The match test of `HyperliquidWebSocket._handle_message`
(`src/hyperliquid/websocket.py`, lines 159-175): a handler keyed by
`callback_channel` fires for a frame on `channel` when they are equal, when either
is a substring of the other, or when the key contains a colon and the channel
equals the key's text before it. -/
def channelMatches (channel key : String) : Bool :=
  channel == key
  || pyIn key channel
  || pyIn channel key
  || (key.data.contains ':' && channel == beforeColon key)

/-- Structural channel matching as the specification describes dispatch: an exact
match, or a declared parameterized key (channel type plus an address/symbol
parameter after a colon) matched by its bare channel type. Stated from the spec's
words for comparison with `channelMatches`. -/
def structuralMatch (channel key : String) : Bool :=
  channel == key
  || (key.data.contains ':' && channel == beforeColon key)
  || (channel.data.contains ':' && key == beforeColon channel)

/-- An inbound frame as parsed by `json.loads`: the embedding keeps the `channel`
key (`data.get("channel", "unknown")` reads it, defaulting to `"unknown"`). -/
structure Frame where
  channel : Option String

/-- The `WebSocketUpdate` object (from `src/hyperliquid/models.py`) handed to
callbacks: channel, parsed data and receipt timestamp. -/
structure WSUpdate where
  channel : String
  data : Frame
  timestamp : Nat

/-- A registered callback; a Python callback that raises is an `.error`. -/
def WsHandler : Type := WSUpdate → Except String Unit

/-- What one `_handle_message` call did: which callback keys fired (in
registration order), which of those raised (their exceptions are caught and
logged at the dispatch boundary), whether the no-match warning was logged, and
whether the frame was dropped as malformed (a `json.loads` failure). -/
structure HandleLog where
  invoked : List String
  failures : List String
  noMatchWarning : Bool
  malformed : Bool
deriving DecidableEq, Repr

/-- The callback loop of `_handle_message`: every registered callback whose key
matches is called; a callback that raises is caught by the inner
`try/except` (recorded under `failures`) and the loop continues with the
remaining callbacks. Returns (invoked keys, failed keys). -/
def runCallbacks (u : WSUpdate) :
    List (String × WsHandler) → List String × List String
  | [] => ([], [])
  | (k, h) :: rest =>
      if channelMatches u.channel k then
        let res := h u
        let (inv, fails) := runCallbacks u rest
        (k :: inv, (match res with | .error _ => [k] | .ok _ => []) ++ fails)
      else runCallbacks u rest

/-- HyperliquidWebSocket._handle_message (`src/hyperliquid/websocket.py`, lines
133-199). `parsed` is the result of `json.loads` on the raw message (`none` for a
malformed frame, which the `except json.JSONDecodeError` logs and drops). The
function is total: no exception escapes it. -/
def handleMessage (cbs : List (String × WsHandler)) (now : Nat)
    (parsed : Option Frame) : HandleLog :=
  match parsed with
  | none => ⟨[], [], false, true⟩
  | some f =>
      let ch := f.channel.getD "unknown"
      let (inv, fails) := runCallbacks ⟨ch, f, now⟩ cbs
      ⟨inv, fails, inv.isEmpty, false⟩

/-- The message-processing part of `HyperliquidWebSocket.listen` (lines 201-220):
each received raw message is handled in arrival order; since `_handle_message`
never raises, every message of the stream is processed. -/
def listenLoop (cbs : List (String × WsHandler)) (now : Nat) :
    List (Option Frame) → List HandleLog
  | [] => []
  | m :: ms => handleMessage cbs now m :: listenLoop cbs now ms

/-- The invoked keys of the callback loop are exactly the registered keys that
match the frame's channel, independent of what the callbacks return. -/
theorem runCallbacks_fst (u : WSUpdate) (cbs : List (String × WsHandler)) :
    (runCallbacks u cbs).1
      = (cbs.filter (fun kh => channelMatches u.channel kh.1)).map Prod.fst := by
  induction cbs with
  | nil => rfl
  | cons kh rest ih =>
      obtain ⟨k, h⟩ := kh
      by_cases hm : channelMatches u.channel k = true
      · simp [runCallbacks, hm, ih]
      · simp [runCallbacks, hm, ih]

/-- The keys recorded as failures form a sublist of the invoked keys. -/
theorem runCallbacks_failures_sublist (u : WSUpdate)
    (cbs : List (String × WsHandler)) :
    (runCallbacks u cbs).2.Sublist (runCallbacks u cbs).1 := by
  induction cbs with
  | nil => exact List.Sublist.refl []
  | cons kh rest ih =>
      obtain ⟨k, h⟩ := kh
      by_cases hm : channelMatches u.channel k = true
      · simp only [runCallbacks, hm, if_true]
        cases hr : h u with
        | ok _ => simpa using ih.cons k
        | error e => simpa using ih.cons₂ k
      · simpa [runCallbacks, hm] using ih

/-- A callback that does nothing. -/
def noopHandler : WsHandler := fun _ => .ok ()

/-- A callback that raises. -/
def raisingHandler : WsHandler := fun _ => .error "boom"

/-- C5 counterexample: a frame on channel `"s"` is dispatched to the handler
registered for `"trades:BTC"` — because `"s"` is a substring of `"trades:BTC"` —
although that key does not structurally match the channel (no exact match, and
`"s"` is not the key's channel type `"trades"`). -/
theorem dispatch_substring_overmatch :
    (handleMessage [("trades:BTC", noopHandler)] 0 (some ⟨some "s"⟩)).invoked
      = ["trades:BTC"]
    ∧ structuralMatch "s" "trades:BTC" = false :=
  ⟨rfl, rfl⟩

/-- C5 (amended): dispatch invokes exactly the registered handlers whose channel
key matches the frame's channel under the code's relation — equality, substring
containment in either direction, or the channel equalling the key's text before
its first colon — invoking all of them (in registration order) when several
match; this relation is broader than structural matching, so handlers whose key
does not structurally match can also fire. -/
theorem dispatch_invokes_code_matches (cbs : List (String × WsHandler))
    (f : Frame) (now : Nat) :
    (handleMessage cbs now (some f)).invoked
      = (cbs.filter
          (fun kh => channelMatches (f.channel.getD "unknown") kh.1)).map
            Prod.fst := by
  unfold handleMessage
  exact runCallbacks_fst _ cbs

/-- C6 (confirmed): a malformed (unparseable) frame is dropped with nothing
invoked; for parsed frames the invoked handlers are exactly the matching ones
regardless of which handlers raise (a raising handler is recorded and the loop
continues, so dispatch always returns normally); the no-match warning fires
exactly when no handler was invoked; and the listening loop processes every
message of the stream — no bad frame or raising handler terminates it. -/
theorem dispatch_error_containment (cbs : List (String × WsHandler)) (f : Frame)
    (now : Nat) (msgs : List (Option Frame)) :
    handleMessage cbs now none = ⟨[], [], false, true⟩
    ∧ (handleMessage cbs now (some f)).invoked
        = (cbs.filter
            (fun kh => channelMatches (f.channel.getD "unknown") kh.1)).map
              Prod.fst
    ∧ (handleMessage cbs now (some f)).failures.Sublist
        (handleMessage cbs now (some f)).invoked
    ∧ (handleMessage cbs now (some f)).noMatchWarning
        = (handleMessage cbs now (some f)).invoked.isEmpty
    ∧ (listenLoop cbs now msgs).length = msgs.length := by
  refine ⟨rfl, ?_, ?_, ?_, ?_⟩
  · unfold handleMessage
    exact runCallbacks_fst _ cbs
  · unfold handleMessage
    exact runCallbacks_failures_sublist _ cbs
  · rfl
  · induction msgs with
    | nil => rfl
    | cons m ms ih => simp [listenLoop, ih]

/-- An outbound subscribe frame
`{"method": "subscribe", "subscription": {"type": ..., <param>}}`: the
subscription type plus its user-address / coin parameter (absent for
`allMids`). -/
structure SubFrame where
  stype : String
  sparam : Option String
deriving DecidableEq, Repr

/-- HyperliquidWebSocket state (`src/hyperliquid/websocket.py`, lines 14-20):
whether the listen loop is marked running, whether the transport is open
(`self.ws`), and the registration dicts `self.subscriptions` and
`self.callbacks`, modelled as insertion-ordered association lists with unique
keys, as Python dicts are. -/
structure WSState where
  is_running : Bool
  connected : Bool
  subscriptions : List (String × SubFrame)
  callbacks : List (String × WsHandler)

/-- Insertion into a Python dict: overwriting an existing key keeps its original
position, a new key is appended. -/
def dictInsert {α : Type} (k : String) (v : α) :
    List (String × α) → List (String × α)
  | [] => [(k, v)]
  | (k', v') :: rest =>
      if k' == k then (k, v) :: rest else (k', v') :: dictInsert k v rest

/-- Operations on the websocket client that can emit outbound subscribe frames:
a `connect()` whose transport open succeeds or raises, the three `subscribe_*`
registrations (with an optional callback), and receipt of one raw message. -/
inductive WSOp where
  | connectOk
  | connectFail
  | subscribeUser (addr : String) (cb : Option WsHandler)
  | subscribeTrades (symbol : String) (cb : Option WsHandler)
  | subscribeAllMids (cb : Option WsHandler)
  | recv (parsed : Option Frame)

/-- The shared tail of the `subscribe_*` methods (lines 54-131): store the
subscription (and callback, when given) under the channel key, and send the
subscribe frame immediately when the transport is open. -/
def subscribeStep (s : WSState) (channel : String) (frame : SubFrame)
    (cb : Option WsHandler) : WSState × List SubFrame :=
  ({ s with
      subscriptions := dictInsert channel frame s.subscriptions,
      callbacks := match cb with
        | some h => dictInsert channel h s.callbacks
        | none => s.callbacks },
    if s.connected then [frame] else [])

/-- One step of the websocket client, returning the new state and the outbound
subscribe frames it sent. `connect()` (lines 22-36) opens the transport, marks
the client running and resends every registered subscription in registration
order (`_send_subscription` swallows individual send failures); a failed
transport open raises, leaving the state unchanged and sending nothing.
`_handle_message` (modelled by `handleMessage`) sends no subscribe frames, so
`recv` emits nothing. -/
def wsStep (s : WSState) : WSOp → WSState × List SubFrame
  | .connectOk =>
      ({ s with connected := true, is_running := true },
        s.subscriptions.map Prod.snd)
  | .connectFail => (s, [])
  | .subscribeUser addr cb =>
      subscribeStep s ("user:" ++ addr) ⟨"userEvents", some addr⟩ cb
  | .subscribeTrades sym cb =>
      subscribeStep s ("trades:" ++ sym) ⟨"trades", some sym⟩ cb
  | .subscribeAllMids cb =>
      subscribeStep s "allMids" ⟨"allMids", none⟩ cb
  | .recv _ => (s, [])

/-- A run of websocket operations, concatenating the sent frames. -/
def wsRun (s : WSState) : List WSOp → WSState × List SubFrame
  | [] => (s, [])
  | op :: ops =>
      let so := wsStep s op
      let so' := wsRun so.1 ops
      (so'.1, so.2 ++ so'.2)

/-- Receiving messages sends nothing and leaves the state unchanged. -/
theorem wsRun_recv_silent (s : WSState) (msgs : List (Option Frame)) :
    wsRun s (msgs.map WSOp.recv) = (s, []) := by
  induction msgs with
  | nil => rfl
  | cons m ms ih => simp [wsRun, wsStep, ih]

/-- Keys after a dict insertion are the inserted key or previous keys. -/
theorem dictInsert_mem_keys {α : Type} (k : String) (v : α)
    (l : List (String × α)) (x : String)
    (hx : x ∈ (dictInsert k v l).map Prod.fst) :
    x = k ∨ x ∈ l.map Prod.fst := by
  induction l with
  | nil =>
      simp only [dictInsert, List.map_cons, List.map_nil, List.mem_cons,
        List.not_mem_nil, or_false] at hx
      exact .inl hx
  | cons kv rest ih =>
      obtain ⟨k', v'⟩ := kv
      by_cases hk : (k' == k) = true
      · rw [show dictInsert k v ((k', v') :: rest) = (k, v) :: rest from by
          simp [dictInsert, hk]] at hx
        rcases List.mem_cons.mp hx with h | h
        · exact .inl h
        · exact .inr (List.mem_cons_of_mem _ h)
      · have hkf : (k' == k) = false := by rwa [Bool.not_eq_true] at hk
        rw [show dictInsert k v ((k', v') :: rest)
              = (k', v') :: dictInsert k v rest from by
          simp [dictInsert, hkf]] at hx
        rcases List.mem_cons.mp hx with h | h
        · exact .inr (List.mem_cons.mpr (.inl h))
        · rcases ih h with h1 | h1
          · exact .inl h1
          · exact .inr (List.mem_cons_of_mem _ h1)

/-- dictInsert preserves uniqueness of keys, so the subscription and callback
dicts always have unique channel keys. -/
theorem dictInsert_nodup {α : Type} (k : String) (v : α)
    (l : List (String × α)) (h : (l.map Prod.fst).Nodup) :
    ((dictInsert k v l).map Prod.fst).Nodup := by
  induction l with
  | nil => simp [dictInsert]
  | cons kv rest ih =>
      obtain ⟨k', v'⟩ := kv
      rw [List.map_cons, List.nodup_cons] at h
      by_cases hk : (k' == k) = true
      · have hkk : k' = k := by simpa using hk
        rw [show dictInsert k v ((k', v') :: rest) = (k, v) :: rest from by
          simp [dictInsert, hk]]
        rw [List.map_cons, List.nodup_cons]
        exact ⟨by rw [← hkk]; exact h.1, h.2⟩
      · have hkf : (k' == k) = false := by rwa [Bool.not_eq_true] at hk
        rw [show dictInsert k v ((k', v') :: rest)
              = (k', v') :: dictInsert k v rest from by
          simp [dictInsert, hkf]]
        rw [List.map_cons, List.nodup_cons]
        refine ⟨?_, ih h.2⟩
        intro hmem
        rcases dictInsert_mem_keys k v rest k' hmem with h1 | h1
        · rw [h1] at hkf
          simp at hkf
        · exact h.1 h1

/-- Every step preserves uniqueness of the subscription dict's channel keys (the
dict starts empty), supporting the hypothesis of the replay theorem. -/
theorem wsStep_preserves_nodup (s : WSState) (op : WSOp)
    (h : (s.subscriptions.map Prod.fst).Nodup) :
    (((wsStep s op).1).subscriptions.map Prod.fst).Nodup := by
  cases op with
  | connectOk => simpa [wsStep] using h
  | connectFail => simpa [wsStep] using h
  | subscribeUser addr cb =>
      simpa [wsStep, subscribeStep] using dictInsert_nodup _ _ _ h
  | subscribeTrades sym cb =>
      simpa [wsStep, subscribeStep] using dictInsert_nodup _ _ _ h
  | subscribeAllMids cb =>
      simpa [wsStep, subscribeStep] using dictInsert_nodup _ _ _ h
  | recv m => simpa [wsStep] using h

/-- C7 (confirmed): a successful `connect()` — in particular a reconnect after a
transport drop — resends the registered subscriptions in registration order and,
the dict's channel keys being unique, each registered subscription exactly once
(the channel's key occurs at exactly one position of the replay); while the
connection then stays live, receiving any sequence of messages sends no further
subscribe frame and leaves the registrations unchanged, so no duplicate
subscription is sent. -/
theorem connect_replays_subscriptions (s : WSState) (msgs : List (Option Frame))
    (k : String) (sub : SubFrame)
    (hnd : (s.subscriptions.map Prod.fst).Nodup)
    (hmem : (k, sub) ∈ s.subscriptions) :
    (wsRun s (.connectOk :: msgs.map WSOp.recv)).2
      = s.subscriptions.map Prod.snd
    ∧ ((wsRun s (.connectOk :: msgs.map WSOp.recv)).1).subscriptions
        = s.subscriptions
    ∧ (s.subscriptions.map Prod.fst).count k = 1
    ∧ sub ∈ (wsRun s (.connectOk :: msgs.map WSOp.recv)).2 := by
  have hrun : wsRun s (.connectOk :: msgs.map WSOp.recv)
      = ({ s with connected := true, is_running := true },
          s.subscriptions.map Prod.snd) := by
    simp [wsRun, wsStep, wsRun_recv_silent]
  refine ⟨by rw [hrun], by rw [hrun], ?_, ?_⟩
  · exact List.count_eq_one_of_mem hnd (List.mem_map_of_mem Prod.fst hmem)
  · rw [hrun]
    exact List.mem_map_of_mem Prod.snd hmem

/-- A websocket client with two registered subscriptions, not yet connected. -/
def sampleWS : WSState :=
  ⟨false, false,
    [("user:0xa", ⟨"userEvents", some "0xa"⟩), ("allMids", ⟨"allMids", none⟩)],
    []⟩

/-- Witness for C7: the sample client reconnects and then receives two messages
(one well-formed, one malformed). -/
theorem connect_replays_subscriptions_witness :
    (wsRun sampleWS
        (.connectOk :: [some (⟨some "allMids"⟩ : Frame), none].map WSOp.recv)).2
      = sampleWS.subscriptions.map Prod.snd
    ∧ ((wsRun sampleWS
        (.connectOk :: [some (⟨some "allMids"⟩ : Frame), none].map WSOp.recv)).1).subscriptions
      = sampleWS.subscriptions
    ∧ (sampleWS.subscriptions.map Prod.fst).count "user:0xa" = 1
    ∧ (⟨"userEvents", some "0xa"⟩ : SubFrame) ∈ (wsRun sampleWS
        (.connectOk :: [some (⟨some "allMids"⟩ : Frame), none].map WSOp.recv)).2 :=
  connect_replays_subscriptions sampleWS [some ⟨some "allMids"⟩, none]
    "user:0xa" ⟨"userEvents", some "0xa"⟩ (by decide) (by decide)

/-- The eight registered Telegram commands (`src/telegram_bot/bot.py`,
`start()` lines 301-308). -/
inductive BotCmd where
  | start
  | status
  | positions
  | orders
  | pause
  | resume
  | stop
  | pnl
deriving DecidableEq, Repr

/-- The control callbacks the main app can configure on the bot
(`TelegramBot.__init__`, lines 36-42). -/
inductive ControlCb where
  | cbPause
  | cbResume
  | cbStop (closePositions : Bool)
  | cbStatus
  | cbPositions
  | cbOrders
  | cbPnl
deriving DecidableEq, Repr

/-- The configured callbacks, each `none` when unset; a configured callback is
modelled by the result of awaiting it (`.error` when it raises). The getter
results carry the externally produced text; the order list carries pre-rendered
per-order lines (the numeric formatting of sizes and prices is abstracted). -/
structure BotCallbacks where
  on_stop : Option (Bool → Except String Unit)
  on_pause : Option (Except String Unit)
  on_resume : Option (Except String Unit)
  get_status : Option (Except String String)
  get_positions : Option (Except String String)
  get_orders : Option (Except String (List String))
  get_pnl : Option (Except String String)

/-- TelegramBot state (`__init__`, lines 19-44): the token and the single chat
id (stored via `str(...)`) allowed to control the bot. -/
structure TelegramBot where
  bot_token : String
  allowed_chat_id : String
deriving DecidableEq, Repr

/-- What a handler invocation did: the texts replied (or edited, for the button
handler), in order, and the control callbacks invoked. -/
structure CmdOutcome where
  replies : List String
  invoked : List ControlCb
deriving DecidableEq, Repr

/-- TelegramBot._check_authorized (lines 46-52):
`str(update.effective_chat.id) != self.allowed_chat_id` denies. -/
def checkAuthorized (bot : TelegramBot) (chatId : String) : Bool :=
  chatId == bot.allowed_chat_id

/-- The /start help text (abbreviated; content irrelevant to control flow). -/
def startHelpText : String := "Hyperliquid Copy Trading Bot - Available Commands"

/-- The /pause success reply (abbreviated). -/
def pausedText : String := "Bot Paused - No new trades will be copied."

/-- The /resume success reply (abbreviated). -/
def resumedText : String := "Bot Resumed - Copying trades is now active!"

/-- The /stop confirmation-keyboard message (abbreviated). -/
def stopConfirmText : String := "STOP COPY TRADING - close all positions too?"

/-- The /pnl static summary (abbreviated), stamped with the current time. -/
def pnlText (nowStr : String) : String :=
  "Account PnL Summary - Updated: " ++ nowStr

/-- The progress edit shown before a stop with position close. -/
def stoppingCloseText : String := "Stopping bot... Closing all positions"

/-- The progress edit shown before a stop keeping positions. -/
def stoppingKeepText : String := "Stopping bot... Keeping positions open"

/-- One Telegram command handler dispatch (`_start_command` .. `_pnl_command`,
lines 54-291): every handler first checks `_check_authorized` and on failure
replies `"⛔ Unauthorized"` and returns without touching any callback; otherwise
it runs its body, invoking its configured callback (if any) and replying with
the result, an error text if the callback raised, or a "not configured"
notice. -/
def handleCommand (bot : TelegramBot) (cbs : BotCallbacks) (nowStr : String)
    (cmd : BotCmd) (chatId : String) : CmdOutcome :=
  if !(checkAuthorized bot chatId) then ⟨["⛔ Unauthorized"], []⟩
  else
    match cmd with
    | .start => ⟨[startHelpText], []⟩
    | .status =>
        match cbs.get_status with
        | some (.ok st) => ⟨[st], [.cbStatus]⟩
        | some (.error e) => ⟨["❌ Error: " ++ e], [.cbStatus]⟩
        | none => ⟨["Status callback not configured"], []⟩
    | .positions =>
        match cbs.get_positions with
        | some (.ok ps) => ⟨[ps], [.cbPositions]⟩
        | some (.error e) => ⟨["❌ Error: " ++ e], [.cbPositions]⟩
        | none => ⟨["📍 No positions callback configured"], []⟩
    | .orders =>
        match cbs.get_orders with
        | some (.ok ords) =>
            if ords.isEmpty then ⟨["📋 No open orders"], [.cbOrders]⟩
            else ⟨["Open Orders: " ++ String.intercalate " " ords], [.cbOrders]⟩
        | some (.error e) => ⟨["❌ Error: " ++ e], [.cbOrders]⟩
        | none => ⟨["📋 No orders callback configured"], []⟩
    | .pause =>
        match cbs.on_pause with
        | some (.ok _) => ⟨[pausedText], [.cbPause]⟩
        | some (.error e) => ⟨["❌ Error: " ++ e], [.cbPause]⟩
        | none => ⟨["Pause callback not configured"], []⟩
    | .resume =>
        match cbs.on_resume with
        | some (.ok _) => ⟨[resumedText], [.cbResume]⟩
        | some (.error e) => ⟨["❌ Error: " ++ e], [.cbResume]⟩
        | none => ⟨["Resume callback not configured"], []⟩
    | .stop => ⟨[stopConfirmText], []⟩
    | .pnl => ⟨[pnlText nowStr], []⟩

/-- TelegramBot._button_callback (lines 208-265): after acknowledging the query
it checks authorization, on failure editing the message to `"⛔ Unauthorized"`
and touching no callback; otherwise it handles the `stop_close` / `stop_keep` /
`stop_cancel` buttons, invoking the configured stop callback with the chosen
`close_positions` flag. -/
def handleButton (bot : TelegramBot) (cbs : BotCallbacks) (qdata chatId : String) :
    CmdOutcome :=
  if !(checkAuthorized bot chatId) then ⟨["⛔ Unauthorized"], []⟩
  else if qdata == "stop_close" then
    match cbs.on_stop with
    | some f =>
        match f true with
        | .ok _ => ⟨[stoppingCloseText, "Bot Stopped - all positions closed"],
            [.cbStop true]⟩
        | .error e => ⟨[stoppingCloseText, "❌ Error: " ++ e], [.cbStop true]⟩
    | none => ⟨[stoppingCloseText], []⟩
  else if qdata == "stop_keep" then
    match cbs.on_stop with
    | some f =>
        match f false with
        | .ok _ => ⟨[stoppingKeepText, "Bot Stopped - positions kept open"],
            [.cbStop false]⟩
        | .error e => ⟨[stoppingKeepText, "❌ Error: " ++ e], [.cbStop false]⟩
    | none => ⟨[stoppingKeepText], []⟩
  else if qdata == "stop_cancel" then
    ⟨["Stop cancelled. Bot is still running."], []⟩
  else ⟨[], []⟩

/-- C10 (confirmed): for every command handler and for the button handler, an
update whose effective chat id differs (as a string) from the configured
`allowed_chat_id` gets the reply `"⛔ Unauthorized"` and causes no control
callback invocation, whatever callbacks are configured. -/
theorem unauthorized_commands_blocked (bot : TelegramBot) (cbs : BotCallbacks)
    (nowStr : String) (cmd : BotCmd) (qdata chatId : String)
    (hne : chatId ≠ bot.allowed_chat_id) :
    handleCommand bot cbs nowStr cmd chatId = ⟨["⛔ Unauthorized"], []⟩
    ∧ handleButton bot cbs qdata chatId = ⟨["⛔ Unauthorized"], []⟩ := by
  have hb : checkAuthorized bot chatId = false := by
    simp [checkAuthorized]
    exact hne
  constructor
  · simp [handleCommand, hb]
  · simp [handleButton, hb]

/-- A bot allowing chat id "123" with every callback configured. -/
def sampleBot : TelegramBot := ⟨"token", "123"⟩

/-- Fully configured callbacks for the witness. -/
def sampleCbs : BotCallbacks :=
  ⟨some (fun _ => .ok ()), some (.ok ()), some (.ok ()), some (.ok "st"),
    some (.ok "pos"), some (.ok ["o1"]), some (.ok "pnl")⟩

/-- Witness for C10: chat id "999" is rejected on /pause and on the stop-close
button even with all callbacks configured. -/
theorem unauthorized_commands_blocked_witness :
    handleCommand sampleBot sampleCbs "12:00" .pause "999"
      = ⟨["⛔ Unauthorized"], []⟩
    ∧ handleButton sampleBot sampleCbs "stop_close" "999"
      = ⟨["⛔ Unauthorized"], []⟩ :=
  unauthorized_commands_blocked sampleBot sampleCbs "12:00" .pause "stop_close"
    "999" (by decide)
